import Mathlib

/-!
A shallow embedding of the SCARA kinematics core of
`src/Movement/Kinematics/ScaraKinematics.cpp` (with its interface in
`src/Movement/Kinematics/Kinematics.h`), together with theorems settling
the specification claims about it.

Modelling conventions:
* C++ `float` values are modelled by exact real numbers (`ℝ`);
* the `float → int32_t` conversions on the motor-step outputs are modelled
  by truncation toward zero (`itrunc`);
* `atan2f`, `sqrtf`, `cosf`, `sinf` are modelled by the exact mathematical
  functions;
* output arrays are modelled as functions `ℕ → ℤ` / `ℕ → ℝ`, an assignment
  to `machinePos[Z_AXIS]` etc. becoming a pointwise update (`X_AXIS = 0`,
  `Y_AXIS = 1`, `Z_AXIS = 2`);
* the mutable `isDefaultArmMode` flag and the parameter fields are passed
  and returned explicitly.
-/

noncomputable section

/-- The firmware's `fsquare(a) = a * a`. -/
def fsquare (a : ℝ) : ℝ := a * a

/-- The firmware's `DegreesToRadians` conversion constant, modelled exactly. -/
def DegreesToRadians : ℝ := Real.pi / 180

/-- The firmware's `RadiansToDegrees` conversion constant, modelled exactly. -/
def RadiansToDegrees : ℝ := 180 / Real.pi

/-- C library `atan2f(y, x)`: the angle of the point `(x, y)`, in `(-π, π]`. -/
def atan2 (y x : ℝ) : ℝ := Complex.arg ⟨x, y⟩

/-- The C cast `(int32_t)r` (and the implicit `float → int32_t` conversion on
assignment): truncation toward zero. -/
def itrunc (r : ℝ) : ℤ := if 0 ≤ r then ⌊r⌋ else ⌈r⌉

/-- `hypot(x, y)`, the Euclidean norm used by the spec's wording. -/
def hypot (x y : ℝ) : ℝ := Real.sqrt (x ^ 2 + y ^ 2)

/-- The state of a `ScaraKinematics` object: the configured parameters
(`proximalArmLength`, …, `crosstalk`, and the segmentation fields inherited
from `Kinematics`) plus the derived values maintained by `Recalc`. -/
structure ScaraParams where
  proximalArmLength : ℝ
  distalArmLength : ℝ
  thetaLimits : ℝ × ℝ
  phiMinusThetaLimits : ℝ × ℝ
  crosstalk : ℝ × ℝ × ℝ
  segmentsPerSecond : ℝ
  minSegmentLength : ℝ
  proximalArmLengthSquared : ℝ
  distalArmLengthSquared : ℝ
  minRadius : ℝ
  maxRadius : ℝ

/-- `cosPsiMinusTheta` as computed at the top of
`ScaraKinematics::CartesianToMotorSteps`
(`(fsquare(x) + fsquare(y) - proximalArmLengthSquared -
distalArmLengthSquared) / (2.0f * proximalArmLength * distalArmLength)`). -/
def cosPsiMinusTheta (p : ScaraParams) (x y : ℝ) : ℝ :=
  (fsquare x + fsquare y - p.proximalArmLengthSquared - p.distalArmLengthSquared) /
    (2 * p.proximalArmLength * p.distalArmLength)

/-- `SCARA_K1 = proximalArmLength + distalArmLength * cosPsiMinusTheta`. -/
def scaraK1 (p : ScaraParams) (c : ℝ) : ℝ := p.proximalArmLength + p.distalArmLength * c

/-- `SCARA_K2 = distalArmLength * sinPsiMinusTheta`. -/
def scaraK2 (p : ScaraParams) (s : ℝ) : ℝ := p.distalArmLength * s

/-- The arm-mode-0 candidate:
`theta = atan2f(SCARA_K2 * x - SCARA_K1 * y, SCARA_K1 * x + SCARA_K2 * y)`. -/
def thetaModeA (x y K1 K2 : ℝ) : ℝ := atan2 (K2 * x - K1 * y) (K1 * x + K2 * y)

/-- The arm-mode-1 candidate:
`theta = atan2f(SCARA_K2 * x + SCARA_K1 * y, SCARA_K1 * x - SCARA_K2 * y)`. -/
def thetaModeB (x y K1 K2 : ℝ) : ℝ := atan2 (K2 * x + K1 * y) (K1 * x - K2 * y)

/-- One iteration body of the arm-mode loop in `CartesianToMotorSteps`: in the
default mode the candidate is accepted when `theta >= thetaLimits[0]`, in the
other mode when `theta <= thetaLimits[1]`. -/
def trySolveMode (p : ScaraParams) (x y K1 K2 : ℝ) : Bool → Option ℝ
  | true =>
      if p.thetaLimits.1 ≤ thetaModeA x y K1 K2 then some (thetaModeA x y K1 K2) else none
  | false =>
      if thetaModeB x y K1 K2 ≤ p.thetaLimits.2 then some (thetaModeB x y K1 K2) else none

/-- The `for (;;)` loop of `CartesianToMotorSteps`, which runs at most twice:
try the current arm mode; if it is invalid, toggle `isDefaultArmMode`
(`isDefaultArmMode = !isDefaultArmMode`) and try the other mode; if that is
also invalid, fail.  Returns the chosen `(mode, theta)` (or `none`) together
with the final value of the `isDefaultArmMode` flag. -/
def armModeLoop (p : ScaraParams) (x y K1 K2 : ℝ) (mode0 : Bool) :
    Option (Bool × ℝ) × Bool :=
  match trySolveMode p x y K1 K2 mode0 with
  | some th => (some (mode0, th), mode0)
  | none =>
      match trySolveMode p x y K1 K2 (!mode0) with
      | some th => (some (!mode0, th), !mode0)
      | none => (none, !mode0)

/-- The three output-array assignments at the end of
`CartesianToMotorSteps`:
`motorPos[X_AXIS] = theta * RadiansToDegrees * stepsPerMm[X_AXIS];`
`motorPos[Y_AXIS] = (psi * RadiansToDegrees * stepsPerMm[Y_AXIS]) -
(crosstalk[0] * motorPos[X_AXIS]);`
`motorPos[Z_AXIS] = (int32_t)((machinePos[Z_AXIS] * stepsPerMm[Z_AXIS]) -
(motorPos[X_AXIS] * crosstalk[1]) - (motorPos[Y_AXIS] * crosstalk[2]));`
with `psi = theta + psiMinusTheta`. -/
def writeSteps (p : ScaraParams) (machinePos stepsPerMm : ℕ → ℝ) (motorPos : ℕ → ℤ)
    (theta psiMinusTheta : ℝ) : ℕ → ℤ :=
  let psi := theta + psiMinusTheta
  let mX := itrunc (theta * RadiansToDegrees * stepsPerMm 0)
  let mY := itrunc (psi * RadiansToDegrees * stepsPerMm 1 - p.crosstalk.1 * (mX : ℝ))
  let mZ := itrunc (machinePos 2 * stepsPerMm 2 - (mX : ℝ) * p.crosstalk.2.1 -
    (mY : ℝ) * p.crosstalk.2.2)
  fun i => if i = 0 then mX else if i = 1 then mY else if i = 2 then mZ else motorPos i

/-- `ScaraKinematics::CartesianToMotorSteps`.  Input: the machine position and
steps-per-unit arrays, the current `isDefaultArmMode` flag and the current
contents of the output array.  Output: the boolean return value, the final
`isDefaultArmMode` flag, and the final contents of the output array.
The `psiMinusTheta` passed to `writeSteps` is negated exactly when the chosen
mode is the non-default one (`psiMinusTheta = -psiMinusTheta` before `break`
in the mode-1 branch). -/
def CartesianToMotorSteps (p : ScaraParams) (machinePos stepsPerMm : ℕ → ℝ)
    (isDefaultArmMode : Bool) (motorPos : ℕ → ℤ) : Bool × Bool × (ℕ → ℤ) :=
  if 1 - fsquare (cosPsiMinusTheta p (machinePos 0) (machinePos 1)) < 0.01 then
    (false, isDefaultArmMode, motorPos)
  else
    match armModeLoop p (machinePos 0) (machinePos 1)
        (scaraK1 p (cosPsiMinusTheta p (machinePos 0) (machinePos 1)))
        (scaraK2 p (Real.sqrt (1 - fsquare (cosPsiMinusTheta p (machinePos 0) (machinePos 1)))))
        isDefaultArmMode with
    | (none, mode2) => (false, mode2, motorPos)
    | (some (mode2, theta), _) =>
        (true, mode2,
          writeSteps p machinePos stepsPerMm motorPos theta
            (if mode2 then
              atan2 (Real.sqrt (1 - fsquare (cosPsiMinusTheta p (machinePos 0) (machinePos 1))))
                (cosPsiMinusTheta p (machinePos 0) (machinePos 1))
            else
              -atan2 (Real.sqrt (1 - fsquare (cosPsiMinusTheta p (machinePos 0) (machinePos 1))))
                (cosPsiMinusTheta p (machinePos 0) (machinePos 1))))

/-- `ScaraKinematics::MotorStepsToCartesian`.  Input: the motor positions, the
steps-per-unit array and the current contents of the output array; output: the
final contents of the output array. -/
def MotorStepsToCartesian (p : ScaraParams) (motorPos : ℕ → ℤ) (stepsPerMm : ℕ → ℝ)
    (machinePos : ℕ → ℝ) : ℕ → ℝ :=
  let arm1Angle := ((motorPos 0 : ℝ) / stepsPerMm 0) * DegreesToRadians
  let arm2Angle := (((motorPos 1 : ℝ) + (motorPos 0 : ℝ) * p.crosstalk.1) / stepsPerMm 1) *
    DegreesToRadians
  fun i =>
    if i = 0 then Real.cos arm1Angle * p.proximalArmLength +
      Real.cos arm2Angle * p.distalArmLength
    else if i = 1 then Real.sin arm1Angle * p.proximalArmLength +
      Real.sin arm2Angle * p.distalArmLength
    else if i = 2 then ((motorPos 2 : ℝ) + (motorPos 0 : ℝ) * p.crosstalk.2.1 +
      (motorPos 1 : ℝ) * p.crosstalk.2.2) / stepsPerMm 2
    else machinePos i

/-- `ScaraKinematics::IsReachable`:
`r = sqrtf(fsquare(x) + fsquare(y)); return r >= minRadius && r <= maxRadius
&& x > 0.0;`. -/
def IsReachable (p : ScaraParams) (x y : ℝ) : Prop :=
  Real.sqrt (fsquare x + fsquare y) ≥ p.minRadius ∧
    Real.sqrt (fsquare x + fsquare y) ≤ p.maxRadius ∧ x > 0

/-- `ScaraKinematics::Recalc`: recompute the derived values from the raw
parameters. -/
def Recalc (p : ScaraParams) : ScaraParams :=
  { p with
    minRadius := (p.proximalArmLength + p.distalArmLength *
      max (Real.cos p.phiMinusThetaLimits.1) (Real.cos p.phiMinusThetaLimits.2)) * 1.01
    maxRadius := (p.proximalArmLength + p.distalArmLength) * 0.99
    proximalArmLengthSquared := fsquare p.proximalArmLength
    distalArmLengthSquared := fsquare p.distalArmLength }

/-- Modelled from the spec: the result of the collaborator call
`fetch-array-if-present(letter, expectedCount)` of `GCodeBuffer`
(`GCodeBuffer::TryGetFloatArray` is not under `src/`): the letter is either
absent, or present with the expected number of values, or present but
malformed (wrong array length). -/
inductive FloatArrayArg (n : ℕ) where
  | absent
  | ok (vals : Fin n → ℝ)
  | wrongLength

/-- Modelled from the spec: the parameter letters of an M669 command as
exposed by the `GCodeBuffer` collaborator (not under `src/`): scalar letters
P, D, S, T with a was-present flag, and array letters A, B, C. -/
structure M669Buffer where
  pArg : Option ℝ
  dArg : Option ℝ
  sArg : Option ℝ
  tArg : Option ℝ
  aArg : FloatArrayArg 2
  bArg : FloatArrayArg 2
  cArg : FloatArrayArg 3

/-- Modelled from the spec: the observable content written to the
caller-supplied reply buffer (`StringRef& reply`, whose formatting functions
are not under `src/`): nothing, a wrong-array-length diagnostic naming the
offending letter, the human-readable report of all current parameter values,
or whatever the `Kinematics` base-class implementation reports for an
irrelevant command code. -/
inductive Reply where
  | empty
  | wrongArrayLength (letter : Char)
  | scaraReport (p : ScaraParams)
  | baseClassReply

/-- The four scalar fetches at the top of the M669 branch of
`ScaraKinematics::SetOrReportParameters`
(`gb.TryGetFValue('P', proximalArmLength, seen)` and so on): each present
letter overwrites the corresponding member. -/
def applyScalarParams (gb : M669Buffer) (p : ScaraParams) : ScaraParams :=
  let p1 := match gb.pArg with
    | some v => { p with proximalArmLength := v }
    | none => p
  let p2 := match gb.dArg with
    | some v => { p1 with distalArmLength := v }
    | none => p1
  let p3 := match gb.sArg with
    | some v => { p2 with segmentsPerSecond := v }
    | none => p2
  match gb.tArg with
  | some v => { p3 with minSegmentLength := v }
  | none => p3

/-- The `seen` flag after the four scalar fetches: true iff any of the scalar
letters P, D, S, T was present. -/
def scalarSeen (gb : M669Buffer) : Bool :=
  gb.pArg.isSome || gb.dArg.isSome || gb.sArg.isSome || gb.tArg.isSome

/-- Modelled from the spec: one call of `GCodeBuffer::TryGetFloatArray`
(not under `src/`) as used in the M669 branch.  Per the spec (§4.3, §7): when
the letter is present and successfully parsed the values are applied and the
caller returns true immediately; when the letter is present but malformed the
error flag is set, a diagnostic is written into the reply buffer, and the
caller still returns true.  `some` therefore means "the caller returns true
with this state", `none` means "letter absent, continue". -/
def tryGetFloatArray {n : ℕ} (letter : Char) (arg : FloatArrayArg n)
    (app : (Fin n → ℝ) → ScaraParams) (p : ScaraParams) (err : Bool) :
    Option (ScaraParams × Reply × Bool) :=
  match arg with
  | .absent => none
  | .ok v => some (app v, Reply.empty, err)
  | .wrongLength => some (p, Reply.wrongArrayLength letter, true)

/-- `ScaraKinematics::SetOrReportParameters`.  Output: the boolean return
value, the final parameter state, the reply content, and the final error
flag.  The non-669 branch delegates to the `Kinematics` base class (only
declared under `src/`), modelled from the spec as reporting "not supported". -/
def SetOrReportParameters (mCode : ℕ) (gb : M669Buffer) (p : ScaraParams) (error : Bool) :
    Bool × ScaraParams × Reply × Bool :=
  if mCode = 669 then
    let p1 := applyScalarParams gb p
    match tryGetFloatArray 'A' gb.aArg (fun v => { p1 with thetaLimits := (v 0, v 1) })
        p1 error with
    | some r => (true, r)
    | none =>
      match tryGetFloatArray 'B' gb.bArg
          (fun v => { p1 with phiMinusThetaLimits := (v 0, v 1) }) p1 error with
      | some r => (true, r)
      | none =>
        match tryGetFloatArray 'C' gb.cArg
            (fun v => { p1 with crosstalk := (v 0, v 1, v 2) }) p1 error with
        | some r => (true, r)
        | none =>
          if scalarSeen gb then (true, Recalc p1, Reply.empty, error)
          else (false, p1, Reply.scaraReport p1, error)
  else
    (false, p, Reply.baseClassReply, error)

end

/-- Claim C3: `IsReachable(x, y)` is true iff
`minRadius ≤ hypot(x, y) ≤ maxRadius` and `x > 0`. -/
theorem isReachable_iff (p : ScaraParams) (x y : ℝ) :
    IsReachable p x y ↔
      p.minRadius ≤ hypot x y ∧ hypot x y ≤ p.maxRadius ∧ 0 < x := by
  unfold IsReachable hypot fsquare
  rw [show x * x + y * y = x ^ 2 + y ^ 2 by ring]

/-- Claim C8: `MotorStepsToCartesian` is total and computes exactly
`arm1Angle = Xsteps / stepsPerDegreeX` (in radians),
`arm2Angle = (Ysteps + Xsteps·crosstalk[0]) / stepsPerDegreeY` (in radians),
`x = P·cos(arm1Angle) + D·cos(arm2Angle)`,
`y = P·sin(arm1Angle) + D·sin(arm2Angle)`,
`z = (Zsteps + Xsteps·crosstalk[1] + Ysteps·crosstalk[2]) / stepsPerUnitZ`. -/
theorem motorStepsToCartesian_eq (p : ScaraParams) (motorPos : ℕ → ℤ)
    (stepsPerMm : ℕ → ℝ) (machinePos : ℕ → ℝ) :
    MotorStepsToCartesian p motorPos stepsPerMm machinePos 0 =
        p.proximalArmLength * Real.cos (((motorPos 0 : ℝ) / stepsPerMm 0) * (Real.pi / 180)) +
        p.distalArmLength *
          Real.cos ((((motorPos 1 : ℝ) + (motorPos 0 : ℝ) * p.crosstalk.1) / stepsPerMm 1) *
            (Real.pi / 180)) ∧
      MotorStepsToCartesian p motorPos stepsPerMm machinePos 1 =
        p.proximalArmLength * Real.sin (((motorPos 0 : ℝ) / stepsPerMm 0) * (Real.pi / 180)) +
        p.distalArmLength *
          Real.sin ((((motorPos 1 : ℝ) + (motorPos 0 : ℝ) * p.crosstalk.1) / stepsPerMm 1) *
            (Real.pi / 180)) ∧
      MotorStepsToCartesian p motorPos stepsPerMm machinePos 2 =
        ((motorPos 2 : ℝ) + (motorPos 0 : ℝ) * p.crosstalk.2.1 +
          (motorPos 1 : ℝ) * p.crosstalk.2.2) / stepsPerMm 2 := by
  refine ⟨?_, ?_, ?_⟩
  · simp only [MotorStepsToCartesian, DegreesToRadians]
    norm_num
    ring
  · simp only [MotorStepsToCartesian, DegreesToRadians]
    norm_num
    ring
  · simp only [MotorStepsToCartesian, DegreesToRadians]
    norm_num

/-- Helper: `atan2 y 0 = π/2` for positive `y`. -/
lemma atan2_pos_zero {y : ℝ} (h : 0 < y) : atan2 y 0 = Real.pi / 2 := by
  unfold atan2
  rw [show (⟨0, y⟩ : ℂ) = (y : ℂ) * Complex.I by apply Complex.ext <;> simp]
  rw [Complex.arg_real_mul _ h, Complex.arg_I]

/-- Helper: `atan2` always lands strictly above `-π`. -/
lemma neg_pi_lt_atan2 (y x : ℝ) : -Real.pi < atan2 y x := Complex.neg_pi_lt_arg _

/-- Helper: truncation of an integer-valued real is that integer. -/
lemma itrunc_intCast (n : ℤ) : itrunc (n : ℝ) = n := by
  unfold itrunc
  split <;> simp

/-- Helper: truncation via an integer-value equation. -/
lemma itrunc_eq_intCast {r : ℝ} {n : ℤ} (h : r = (n : ℝ)) : itrunc r = n := by
  rw [h, itrunc_intCast]

/-- Helper: the singularity check makes `CartesianToMotorSteps` return with
everything unchanged. -/
lemma ctms_fail_of_singular (p : ScaraParams) (machinePos stepsPerMm : ℕ → ℝ)
    (mode : Bool) (motorPos : ℕ → ℤ)
    (h : 1 - fsquare (cosPsiMinusTheta p (machinePos 0) (machinePos 1)) < 0.01) :
    CartesianToMotorSteps p machinePos stepsPerMm mode motorPos = (false, mode, motorPos) := by
  unfold CartesianToMotorSteps
  rw [if_pos h]

/-- A concrete parameter state with both arm lengths 1 and consistent squared
caches, used by several witnesses. -/
noncomputable def pUnit : ScaraParams :=
  { proximalArmLength := 1, distalArmLength := 1, thetaLimits := (0, 0),
    phiMinusThetaLimits := (0, 0), crosstalk := (0, 0, 0), segmentsPerSecond := 100,
    minSegmentLength := 0.2, proximalArmLengthSquared := 1, distalArmLengthSquared := 1,
    minRadius := 0, maxRadius := 0 }

/-- Claim C10: when `CartesianToMotorSteps` fails the singularity check
(`1 − cosElbow² < 0.01`) it returns false with the output array and the
arm-mode flag completely unchanged. -/
theorem cartesianToMotorSteps_singular_unchanged (p : ScaraParams)
    (machinePos stepsPerMm : ℕ → ℝ) (mode : Bool) (motorPos : ℕ → ℤ)
    (h : 1 - fsquare (cosPsiMinusTheta p (machinePos 0) (machinePos 1)) < 0.01) :
    CartesianToMotorSteps p machinePos stepsPerMm mode motorPos = (false, mode, motorPos) :=
  ctms_fail_of_singular p machinePos stepsPerMm mode motorPos h

/-- Witness for C10 at arm lengths 1 and target (0, 0), where
`cosElbow = −1` and the singularity margin triggers. -/
theorem cartesianToMotorSteps_singular_unchanged_witness :
    CartesianToMotorSteps pUnit (fun _ => 0) (fun _ => 1) true (fun _ => 0) =
      (false, true, fun _ => 0) :=
  cartesianToMotorSteps_singular_unchanged pUnit (fun _ => 0) (fun _ => 1) true (fun _ => 0)
    (by norm_num [cosPsiMinusTheta, fsquare, pUnit])

/-- Claim C2: `CartesianToMotorSteps` fails whenever `1 − cosElbow² < 0.01`
with `cosElbow = (x² + y² − P² − D²)/(2·P·D)`; in particular any target with
`x² + y² = (P + D)²` (fully extended arm) fails, signalled by the boolean
return value.  The squared-cache hypotheses say the derived values are
consistent with the arm lengths, as `Recalc` maintains. -/
theorem cartesianToMotorSteps_singularity_reject (p : ScaraParams)
    (machinePos stepsPerMm : ℕ → ℝ) (mode : Bool) (motorPos : ℕ → ℤ) :
    (p.proximalArmLengthSquared = fsquare p.proximalArmLength →
      p.distalArmLengthSquared = fsquare p.distalArmLength →
      1 - fsquare ((fsquare (machinePos 0) + fsquare (machinePos 1) -
          fsquare p.proximalArmLength - fsquare p.distalArmLength) /
          (2 * p.proximalArmLength * p.distalArmLength)) < 0.01 →
      (CartesianToMotorSteps p machinePos stepsPerMm mode motorPos).1 = false) ∧
    (0 < p.proximalArmLength → 0 < p.distalArmLength →
      p.proximalArmLengthSquared = fsquare p.proximalArmLength →
      p.distalArmLengthSquared = fsquare p.distalArmLength →
      fsquare (machinePos 0) + fsquare (machinePos 1) =
        fsquare (p.proximalArmLength + p.distalArmLength) →
      (CartesianToMotorSteps p machinePos stepsPerMm mode motorPos).1 = false) := by
  constructor
  · intro h1 h2 h3
    have h' : 1 - fsquare (cosPsiMinusTheta p (machinePos 0) (machinePos 1)) < 0.01 := by
      unfold cosPsiMinusTheta
      rw [h1, h2]
      exact h3
    rw [ctms_fail_of_singular p machinePos stepsPerMm mode motorPos h']
  · intro hP hD h1 h2 hxy
    have hPD : 2 * p.proximalArmLength * p.distalArmLength ≠ 0 := by positivity
    have hc : cosPsiMinusTheta p (machinePos 0) (machinePos 1) = 1 := by
      unfold cosPsiMinusTheta
      rw [h1, h2, hxy]
      simp only [fsquare]
      field_simp
      ring
    have h' : 1 - fsquare (cosPsiMinusTheta p (machinePos 0) (machinePos 1)) < 0.01 := by
      rw [hc]
      norm_num [fsquare]
    rw [ctms_fail_of_singular p machinePos stepsPerMm mode motorPos h']

/-- Witness for C2: arm lengths 1, target (2, 0) — a fully extended arm. -/
theorem cartesianToMotorSteps_singularity_reject_witness :
    (0 : ℝ) < 1 ∧
      (CartesianToMotorSteps pUnit (fun i => if i = 0 then 2 else 0) (fun _ => 1) true
        (fun _ => 0)).1 = false :=
  ⟨by norm_num,
    (cartesianToMotorSteps_singularity_reject pUnit (fun i => if i = 0 then 2 else 0)
        (fun _ => 1) true (fun _ => 0)).2
      (by norm_num [pUnit]) (by norm_num [pUnit])
      (by norm_num [pUnit, fsquare]) (by norm_num [pUnit, fsquare])
      (by norm_num [pUnit, fsquare])⟩

/-- Claim C9: `CartesianToMotorSteps` and `MotorStepsToCartesian` write only
the X, Y and Z entries (indices 0, 1, 2) of their output arrays; every entry
at index 3 or above keeps its previous contents. -/
theorem conversions_write_only_xyz (p : ScaraParams) (machinePos stepsPerMm : ℕ → ℝ)
    (mode : Bool) (motorPos : ℕ → ℤ) (motorPos2 : ℕ → ℤ)
    (stepsPerMm2 machinePos2 : ℕ → ℝ) (i : ℕ) (hi : 3 ≤ i) :
    (CartesianToMotorSteps p machinePos stepsPerMm mode motorPos).2.2 i = motorPos i ∧
      MotorStepsToCartesian p motorPos2 stepsPerMm2 machinePos2 i = machinePos2 i := by
  have h0 : i ≠ 0 := by omega
  have h1 : i ≠ 1 := by omega
  have h2 : i ≠ 2 := by omega
  constructor
  · unfold CartesianToMotorSteps
    split
    · rfl
    · split
      · rfl
      · simp [writeSteps, h0, h1, h2]
  · simp [MotorStepsToCartesian, h0, h1, h2]

/-- Witness for C9 at index 3. -/
theorem conversions_write_only_xyz_witness :
    (CartesianToMotorSteps pUnit (fun _ => 0) (fun _ => 1) true (fun _ => 7)).2.2 3 = 7 ∧
      MotorStepsToCartesian pUnit (fun _ => 0) (fun _ => 1) (fun _ => 9) 3 = 9 :=
  conversions_write_only_xyz pUnit (fun _ => 0) (fun _ => 1) true (fun _ => 7)
    (fun _ => 0) (fun _ => 1) (fun _ => 9) 3 (by norm_num)

/-- Helper: a scalar-seen flag of false means no scalar letter was present,
so the scalar fetches leave the parameters unchanged. -/
lemma applyScalarParams_of_not_seen (gb : M669Buffer) (p : ScaraParams)
    (h : scalarSeen gb = false) : applyScalarParams gb p = p := by
  unfold scalarSeen at h
  unfold applyScalarParams
  cases hp : gb.pArg <;> cases hd : gb.dArg <;> cases hs : gb.sArg <;> cases ht : gb.tArg <;>
    simp_all


/-- Helper: evaluation of `CartesianToMotorSteps` when the singularity check
passes and both arm modes are rejected: the call fails with the arm-mode flag
toggled and the output array untouched. -/
lemma ctms_both_modes_fail (p : ScaraParams) (machinePos stepsPerMm : ℕ → ℝ)
    (mode0 : Bool) (motorPos : ℕ → ℤ)
    (hs : ¬(1 - fsquare (cosPsiMinusTheta p (machinePos 0) (machinePos 1)) < 0.01))
    (h1 : trySolveMode p (machinePos 0) (machinePos 1)
      (scaraK1 p (cosPsiMinusTheta p (machinePos 0) (machinePos 1)))
      (scaraK2 p (Real.sqrt (1 - fsquare (cosPsiMinusTheta p (machinePos 0) (machinePos 1)))))
      mode0 = none)
    (h2 : trySolveMode p (machinePos 0) (machinePos 1)
      (scaraK1 p (cosPsiMinusTheta p (machinePos 0) (machinePos 1)))
      (scaraK2 p (Real.sqrt (1 - fsquare (cosPsiMinusTheta p (machinePos 0) (machinePos 1)))))
      (!mode0) = none) :
    CartesianToMotorSteps p machinePos stepsPerMm mode0 motorPos =
      (false, !mode0, motorPos) := by
  unfold CartesianToMotorSteps
  rw [if_neg hs]
  simp only [armModeLoop, h1, h2]

/-- Helper: evaluation of `CartesianToMotorSteps` when the singularity check
passes and the initially preferred arm mode is accepted. -/
lemma ctms_first_mode_succeeds (p : ScaraParams) (machinePos stepsPerMm : ℕ → ℝ)
    (mode0 : Bool) (motorPos : ℕ → ℤ) (th : ℝ)
    (hs : ¬(1 - fsquare (cosPsiMinusTheta p (machinePos 0) (machinePos 1)) < 0.01))
    (h1 : trySolveMode p (machinePos 0) (machinePos 1)
      (scaraK1 p (cosPsiMinusTheta p (machinePos 0) (machinePos 1)))
      (scaraK2 p (Real.sqrt (1 - fsquare (cosPsiMinusTheta p (machinePos 0) (machinePos 1)))))
      mode0 = some th) :
    CartesianToMotorSteps p machinePos stepsPerMm mode0 motorPos =
      (true, mode0,
        writeSteps p machinePos stepsPerMm motorPos th
          (if mode0 then
            atan2 (Real.sqrt (1 - fsquare (cosPsiMinusTheta p (machinePos 0) (machinePos 1))))
              (cosPsiMinusTheta p (machinePos 0) (machinePos 1))
          else
            -atan2 (Real.sqrt (1 - fsquare (cosPsiMinusTheta p (machinePos 0) (machinePos 1))))
              (cosPsiMinusTheta p (machinePos 0) (machinePos 1)))) := by
  unfold CartesianToMotorSteps
  rw [if_neg hs]
  simp only [armModeLoop, h1]

/-- Helper: evaluation of `CartesianToMotorSteps` when the singularity check
passes, the initially preferred arm mode is rejected, and the other mode is
accepted. -/
lemma ctms_second_mode_succeeds (p : ScaraParams) (machinePos stepsPerMm : ℕ → ℝ)
    (mode0 : Bool) (motorPos : ℕ → ℤ) (th : ℝ)
    (hs : ¬(1 - fsquare (cosPsiMinusTheta p (machinePos 0) (machinePos 1)) < 0.01))
    (h1 : trySolveMode p (machinePos 0) (machinePos 1)
      (scaraK1 p (cosPsiMinusTheta p (machinePos 0) (machinePos 1)))
      (scaraK2 p (Real.sqrt (1 - fsquare (cosPsiMinusTheta p (machinePos 0) (machinePos 1)))))
      mode0 = none)
    (h2 : trySolveMode p (machinePos 0) (machinePos 1)
      (scaraK1 p (cosPsiMinusTheta p (machinePos 0) (machinePos 1)))
      (scaraK2 p (Real.sqrt (1 - fsquare (cosPsiMinusTheta p (machinePos 0) (machinePos 1)))))
      (!mode0) = some th) :
    CartesianToMotorSteps p machinePos stepsPerMm mode0 motorPos =
      (true, !mode0,
        writeSteps p machinePos stepsPerMm motorPos th
          (if !mode0 then
            atan2 (Real.sqrt (1 - fsquare (cosPsiMinusTheta p (machinePos 0) (machinePos 1))))
              (cosPsiMinusTheta p (machinePos 0) (machinePos 1))
          else
            -atan2 (Real.sqrt (1 - fsquare (cosPsiMinusTheta p (machinePos 0) (machinePos 1))))
              (cosPsiMinusTheta p (machinePos 0) (machinePos 1)))) := by
  unfold CartesianToMotorSteps
  rw [if_neg hs]
  simp only [armModeLoop, h1, h2]

/-- Claim C4 (amended): the arm-mode flag is unchanged when the call fails the
singularity check; a call that fails because both arm modes are invalid
leaves the flag toggled; a successful call records an arm mode whose
candidate passed its theta-limit check, keeping the initially preferred mode
whenever that mode was valid. -/
theorem armMode_flag_update (p : ScaraParams) (machinePos stepsPerMm : ℕ → ℝ)
    (mode0 : Bool) (motorPos : ℕ → ℤ) :
    ((1 - fsquare (cosPsiMinusTheta p (machinePos 0) (machinePos 1)) < 0.01) →
      (CartesianToMotorSteps p machinePos stepsPerMm mode0 motorPos).2.1 = mode0) ∧
    (¬(1 - fsquare (cosPsiMinusTheta p (machinePos 0) (machinePos 1)) < 0.01) →
      (CartesianToMotorSteps p machinePos stepsPerMm mode0 motorPos).1 = false →
      (CartesianToMotorSteps p machinePos stepsPerMm mode0 motorPos).2.1 = !mode0) ∧
    ((CartesianToMotorSteps p machinePos stepsPerMm mode0 motorPos).1 = true →
      trySolveMode p (machinePos 0) (machinePos 1)
        (scaraK1 p (cosPsiMinusTheta p (machinePos 0) (machinePos 1)))
        (scaraK2 p (Real.sqrt (1 - fsquare (cosPsiMinusTheta p (machinePos 0) (machinePos 1)))))
        (CartesianToMotorSteps p machinePos stepsPerMm mode0 motorPos).2.1 ≠ none) ∧
    ((CartesianToMotorSteps p machinePos stepsPerMm mode0 motorPos).1 = true →
      trySolveMode p (machinePos 0) (machinePos 1)
        (scaraK1 p (cosPsiMinusTheta p (machinePos 0) (machinePos 1)))
        (scaraK2 p (Real.sqrt (1 - fsquare (cosPsiMinusTheta p (machinePos 0) (machinePos 1)))))
        mode0 ≠ none →
      (CartesianToMotorSteps p machinePos stepsPerMm mode0 motorPos).2.1 = mode0) := by
  by_cases hs : 1 - fsquare (cosPsiMinusTheta p (machinePos 0) (machinePos 1)) < 0.01
  · rw [ctms_fail_of_singular p machinePos stepsPerMm mode0 motorPos hs]
    exact ⟨fun _ => rfl, fun hn => absurd hs hn, fun h => by simp at h, fun h => by simp at h⟩
  · rcases h1 : trySolveMode p (machinePos 0) (machinePos 1)
        (scaraK1 p (cosPsiMinusTheta p (machinePos 0) (machinePos 1)))
        (scaraK2 p (Real.sqrt (1 - fsquare (cosPsiMinusTheta p (machinePos 0) (machinePos 1)))))
        mode0 with _ | th
    · rcases h2 : trySolveMode p (machinePos 0) (machinePos 1)
          (scaraK1 p (cosPsiMinusTheta p (machinePos 0) (machinePos 1)))
          (scaraK2 p (Real.sqrt (1 - fsquare (cosPsiMinusTheta p (machinePos 0) (machinePos 1)))))
          (!mode0) with _ | th2
      · rw [ctms_both_modes_fail p machinePos stepsPerMm mode0 motorPos hs h1 h2]
        exact ⟨fun h => absurd h hs, fun _ _ => rfl,
          fun h => by simp at h, fun h => by simp at h⟩
      · rw [ctms_second_mode_succeeds p machinePos stepsPerMm mode0 motorPos th2 hs h1 h2]
        refine ⟨fun h => absurd h hs, fun _ h => by simp at h, fun _ => ?_, fun _ hm => ?_⟩
        · show trySolveMode p (machinePos 0) (machinePos 1) _ _ (!mode0) ≠ none
          rw [h2]
          simp
        · exact absurd rfl hm
    · rw [ctms_first_mode_succeeds p machinePos stepsPerMm mode0 motorPos th hs h1]
      refine ⟨fun h => absurd h hs, fun _ h => by simp at h, fun _ => ?_, fun _ _ => rfl⟩
      show trySolveMode p (machinePos 0) (machinePos 1) _ _ mode0 ≠ none
      rw [h1]
      simp

/-- Witness for the amended C4: the singularity-failure clause at arm lengths
1 and target (0, 0) leaves the default arm mode in place. -/
theorem armMode_flag_update_witness :
    (1 - fsquare (cosPsiMinusTheta pUnit ((fun _ => (0:ℝ)) 0) ((fun _ => (0:ℝ)) 1)) < 0.01) ∧
      (CartesianToMotorSteps pUnit (fun _ => 0) (fun _ => 1) true (fun _ => 0)).2.1 = true := by
  have hs : 1 - fsquare (cosPsiMinusTheta pUnit ((fun _ => (0:ℝ)) 0)
      ((fun _ => (0:ℝ)) 1)) < 0.01 := by
    norm_num [cosPsiMinusTheta, fsquare, pUnit]
  exact ⟨hs, (armMode_flag_update pUnit (fun _ => 0) (fun _ => 1) true (fun _ => 0)).1 hs⟩

/-- Parameters with arms 6 and 5 (squared caches consistent) whose theta
limits `[4, −4]` (compared in radians by the code) reject both arm modes for
any target passing the singularity check. -/
noncomputable def pBothModesFail : ScaraParams :=
  { proximalArmLength := 6, distalArmLength := 5, thetaLimits := (4, -4),
    phiMinusThetaLimits := (0, 0), crosstalk := (0, 0, 0), segmentsPerSecond := 100,
    minSegmentLength := 0.2, proximalArmLengthSquared := 36, distalArmLengthSquared := 25,
    minRadius := 0, maxRadius := 0 }

/-- Counterexample to C4 as stated: at target (5, −6) with theta limits
`[4, −4]`, `CartesianToMotorSteps` returns false, yet the arm-mode flag has
been toggled from true (the default mode) to false by the failed retry
loop. -/
theorem armMode_flag_changes_on_failure :
    (CartesianToMotorSteps pBothModesFail (fun i => if i = 0 then 5 else if i = 1 then -6 else 0)
        (fun _ => 1) true (fun _ => 0)).1 = false ∧
      (CartesianToMotorSteps pBothModesFail
        (fun i => if i = 0 then 5 else if i = 1 then -6 else 0)
        (fun _ => 1) true (fun _ => 0)).2.1 = false := by
  have hc5 : cosPsiMinusTheta pBothModesFail (5:ℝ) (-6) = 0 := by
    norm_num [cosPsiMinusTheta, fsquare, pBothModesFail]
  have hs5 : ¬(1 - fsquare (cosPsiMinusTheta pBothModesFail (5:ℝ) (-6)) < 0.01) := by
    rw [hc5]
    norm_num [fsquare]
  have hpi : Real.pi < 3.15 := Real.pi_lt_d2
  have hthA : thetaModeA 5 (-6) 6 5 = Real.pi / 2 := by
    unfold thetaModeA
    rw [show (5:ℝ) * 5 - 6 * (-6) = 61 by norm_num, show (6:ℝ) * 5 + 5 * (-6) = 0 by norm_num]
    exact atan2_pos_zero (by norm_num)
  have hlimA : ¬(pBothModesFail.thetaLimits.1 ≤ thetaModeA 5 (-6) 6 5) := by
    rw [hthA]
    show ¬((4:ℝ) ≤ Real.pi / 2)
    intro hle
    linarith
  have hA : trySolveMode pBothModesFail 5 (-6) 6 5 true = none := by
    simp only [trySolveMode]
    rw [if_neg hlimA]
  have hlimB : ¬(thetaModeB 5 (-6) 6 5 ≤ pBothModesFail.thetaLimits.2) := by
    have h1 : -Real.pi < thetaModeB 5 (-6) 6 5 := by
      unfold thetaModeB
      exact neg_pi_lt_atan2 _ _
    show ¬(thetaModeB 5 (-6) 6 5 ≤ (-4:ℝ))
    intro hle
    linarith
  have hB : trySolveMode pBothModesFail 5 (-6) 6 5 false = none := by
    simp only [trySolveMode]
    rw [if_neg hlimB]
  have hloop : armModeLoop pBothModesFail 5 (-6) 6 5 true = (none, false) := by
    simp only [armModeLoop, hA, Bool.not_true, hB]
  have hmain : CartesianToMotorSteps pBothModesFail
      (fun i => if i = 0 then 5 else if i = 1 then -6 else 0) (fun _ => 1) true (fun _ => 0) =
      (false, false, fun _ => 0) := by
    unfold CartesianToMotorSteps
    rw [show (fun i => if i = 0 then (5:ℝ) else if i = 1 then -6 else 0) 0 = 5 from rfl,
      show (fun i => if i = 0 then (5:ℝ) else if i = 1 then -6 else 0) 1 = -6 from rfl]
    rw [if_neg hs5, hc5]
    rw [show scaraK1 pBothModesFail 0 = 6 by norm_num [scaraK1, pBothModesFail]]
    rw [show Real.sqrt (1 - fsquare 0) = 1 by norm_num [fsquare, Real.sqrt_one]]
    rw [show scaraK2 pBothModesFail 1 = 5 by norm_num [scaraK2, pBothModesFail]]
    rw [hloop]
  rw [hmain]
  exact ⟨rfl, rfl⟩

/-- Counterexample to C5 as stated: with P = D = 1 and both phi-minus-theta
limits equal to 0 — strictly inside (−π/2, π/2) — `Recalc` produces
`minRadius = 2·1.01 = 2.02` and `maxRadius = 2·0.99 = 1.98`, so
`minRadius < maxRadius` fails. -/
theorem recalc_radius_counterexample :
    (0:ℝ) < pUnit.proximalArmLength ∧ (0:ℝ) < pUnit.distalArmLength ∧
      -(Real.pi/2) < pUnit.phiMinusThetaLimits.1 ∧ pUnit.phiMinusThetaLimits.1 < Real.pi/2 ∧
      -(Real.pi/2) < pUnit.phiMinusThetaLimits.2 ∧ pUnit.phiMinusThetaLimits.2 < Real.pi/2 ∧
      ¬((Recalc pUnit).minRadius < (Recalc pUnit).maxRadius) := by
  have hpi := Real.pi_pos
  refine ⟨by norm_num [pUnit], by norm_num [pUnit], ?_, ?_, ?_, ?_, ?_⟩
  · show -(Real.pi/2) < (0:ℝ)
    linarith
  · show (0:ℝ) < Real.pi/2
    linarith
  · show -(Real.pi/2) < (0:ℝ)
    linarith
  · show (0:ℝ) < Real.pi/2
    linarith
  · simp only [Recalc, pUnit]
    rw [Real.cos_zero]
    norm_num

/-- Claim C5 (amended): for positive arm lengths, `Recalc` establishes
`minRadius < maxRadius` exactly when
`101·(P + D·max(cos φmin, cos φmax)) < 99·(P + D)`; the condition can fail
for phi-minus-theta limits inside (−π/2, π/2) (e.g. both 0). -/
theorem recalc_radius_iff (p : ScaraParams)
    (hP : 0 < p.proximalArmLength) (hD : 0 < p.distalArmLength) :
    (Recalc p).minRadius < (Recalc p).maxRadius ↔
      101 * (p.proximalArmLength + p.distalArmLength *
        max (Real.cos p.phiMinusThetaLimits.1) (Real.cos p.phiMinusThetaLimits.2)) <
      99 * (p.proximalArmLength + p.distalArmLength) := by
  simp only [Recalc]
  rw [show (1.01:ℝ) = 101/100 by norm_num, show (0.99:ℝ) = 99/100 by norm_num]
  constructor <;> intro h <;> linarith

/-- Parameters with both phi-minus-theta limits π/2, where the amended C5
condition holds. -/
noncomputable def pPhiHalfPi : ScaraParams :=
  { pUnit with phiMinusThetaLimits := (Real.pi/2, Real.pi/2) }

/-- Witness for the amended C5: P = D = 1 with both phi-minus-theta limits
π/2 gives `minRadius = 1.01 < maxRadius = 1.98`. -/
theorem recalc_radius_iff_witness :
    (0:ℝ) < pPhiHalfPi.proximalArmLength ∧ (0:ℝ) < pPhiHalfPi.distalArmLength ∧
      (Recalc pPhiHalfPi).minRadius < (Recalc pPhiHalfPi).maxRadius := by
  refine ⟨by norm_num [pPhiHalfPi, pUnit], by norm_num [pPhiHalfPi, pUnit], ?_⟩
  rw [recalc_radius_iff pPhiHalfPi (by norm_num [pPhiHalfPi, pUnit])
    (by norm_num [pPhiHalfPi, pUnit])]
  simp only [pPhiHalfPi, pUnit]
  rw [Real.cos_pi_div_two]
  norm_num

/-- Claim C6: for command code 669, the first array letter reached (in the
order A, B, C) that is present and successfully parsed is applied on top of
the already-applied scalar letters and the call returns true immediately,
leaving the derived values (`minRadius`, `maxRadius`, the squared caches) as
they were; with no array letter present, a present scalar letter leads to
`Recalc` and a true return; with nothing present, the current values are
reported into the reply and false is returned. -/
theorem setOrReportParameters_m669 (gb : M669Buffer) (p : ScaraParams) (err : Bool) :
    (∀ v, gb.aArg = FloatArrayArg.ok v →
      SetOrReportParameters 669 gb p err =
        (true, { applyScalarParams gb p with thetaLimits := (v 0, v 1) },
          Reply.empty, err)) ∧
    (∀ v, gb.aArg = FloatArrayArg.absent → gb.bArg = FloatArrayArg.ok v →
      SetOrReportParameters 669 gb p err =
        (true, { applyScalarParams gb p with phiMinusThetaLimits := (v 0, v 1) },
          Reply.empty, err)) ∧
    (∀ v, gb.aArg = FloatArrayArg.absent → gb.bArg = FloatArrayArg.absent →
      gb.cArg = FloatArrayArg.ok v →
      SetOrReportParameters 669 gb p err =
        (true, { applyScalarParams gb p with crosstalk := (v 0, v 1, v 2) },
          Reply.empty, err)) ∧
    (gb.aArg = FloatArrayArg.absent → gb.bArg = FloatArrayArg.absent →
      gb.cArg = FloatArrayArg.absent → scalarSeen gb = true →
      SetOrReportParameters 669 gb p err =
        (true, Recalc (applyScalarParams gb p), Reply.empty, err)) ∧
    (gb.aArg = FloatArrayArg.absent → gb.bArg = FloatArrayArg.absent →
      gb.cArg = FloatArrayArg.absent → scalarSeen gb = false →
      SetOrReportParameters 669 gb p err =
        (false, p, Reply.scaraReport p, err)) := by
  refine ⟨?_, ?_, ?_, ?_, ?_⟩
  · intro v ha
    simp [SetOrReportParameters, ha, tryGetFloatArray]
  · intro v ha hb
    simp [SetOrReportParameters, ha, hb, tryGetFloatArray]
  · intro v ha hb hc
    simp [SetOrReportParameters, ha, hb, hc, tryGetFloatArray]
  · intro ha hb hc hseen
    simp [SetOrReportParameters, ha, hb, hc, hseen, tryGetFloatArray]
  · intro ha hb hc hseen
    have hap := applyScalarParams_of_not_seen gb p hseen
    simp [SetOrReportParameters, ha, hb, hc, hseen, tryGetFloatArray, hap]

/-- An M669 buffer with no recognized letters. -/
noncomputable def gbEmpty : M669Buffer :=
  { pArg := none, dArg := none, sArg := none, tArg := none,
    aArg := FloatArrayArg.absent, bArg := FloatArrayArg.absent,
    cArg := FloatArrayArg.absent }

/-- An M669 buffer carrying only `P100`. -/
noncomputable def gbSetP : M669Buffer := { gbEmpty with pArg := some 100 }

/-- An M669 buffer whose A parameter has the wrong array length. -/
noncomputable def gbBadA : M669Buffer := { gbEmpty with aArg := FloatArrayArg.wrongLength }

/-- Witness for C6: setting only `P100` triggers `Recalc` and returns true. -/
theorem setOrReportParameters_m669_witness :
    SetOrReportParameters 669 gbSetP pUnit false =
      (true, Recalc (applyScalarParams gbSetP pUnit), Reply.empty, false) :=
  (setOrReportParameters_m669 gbSetP pUnit false).2.2.2.1 rfl rfl rfl rfl

/-- Claim C7: the first array letter reached that is present but malformed
makes the call set the error flag, write a wrong-array-length diagnostic into
the reply, and still return true (with the scalar letters already applied). -/
theorem setOrReportParameters_m669_malformed (gb : M669Buffer) (p : ScaraParams)
    (err : Bool) :
    (gb.aArg = FloatArrayArg.wrongLength →
      SetOrReportParameters 669 gb p err =
        (true, applyScalarParams gb p, Reply.wrongArrayLength 'A', true)) ∧
    (gb.aArg = FloatArrayArg.absent → gb.bArg = FloatArrayArg.wrongLength →
      SetOrReportParameters 669 gb p err =
        (true, applyScalarParams gb p, Reply.wrongArrayLength 'B', true)) ∧
    (gb.aArg = FloatArrayArg.absent → gb.bArg = FloatArrayArg.absent →
      gb.cArg = FloatArrayArg.wrongLength →
      SetOrReportParameters 669 gb p err =
        (true, applyScalarParams gb p, Reply.wrongArrayLength 'C', true)) := by
  refine ⟨?_, ?_, ?_⟩
  · intro ha
    simp [SetOrReportParameters, ha, tryGetFloatArray]
  · intro ha hb
    simp [SetOrReportParameters, ha, hb, tryGetFloatArray]
  · intro ha hb hc
    simp [SetOrReportParameters, ha, hb, hc, tryGetFloatArray]

/-- Witness for C7: a malformed A parameter on an otherwise empty buffer. -/
theorem setOrReportParameters_m669_malformed_witness :
    SetOrReportParameters 669 gbBadA pUnit false =
      (true, pUnit, Reply.wrongArrayLength 'A', true) := by
  have h := (setOrReportParameters_m669_malformed gbBadA pUnit false).1 rfl
  rw [h, applyScalarParams_of_not_seen gbBadA pUnit rfl]

/-- A steps-per-unit vector of all ones (one step per degree / per mm). -/
noncomputable def oneSteps : ℕ → ℝ := fun _ => 1

/-- An all-zero machine-position array. -/
noncomputable def zeroPos : ℕ → ℝ := fun _ => 0

/-- An all-zero motor-position array. -/
noncomputable def zeroMotor : ℕ → ℤ := fun _ => 0

/-- The machine position (5, −6, 0). -/
noncomputable def target56 : ℕ → ℝ := fun i => if i = 0 then 5 else if i = 1 then -6 else 0

/-- Parameters with arms 6 and 5, theta limits (−1, 1) and phi-minus-theta
limits (π/2, π/2), with the derived values established by `Recalc`
(`minRadius = 6.06`, `maxRadius = 10.89`, squared caches 36 and 25). -/
noncomputable def pRoundTrip : ScaraParams :=
  Recalc
    { proximalArmLength := 6, distalArmLength := 5, thetaLimits := (-1, 1),
      phiMinusThetaLimits := (Real.pi/2, Real.pi/2), crosstalk := (0, 0, 0),
      segmentsPerSecond := 100, minSegmentLength := 0.2,
      proximalArmLengthSquared := 0, distalArmLengthSquared := 0,
      minRadius := 0, maxRadius := 0 }

/-- Helper: the X output of `MotorStepsToCartesian`, spelled out. -/
lemma motorStepsToCartesian_at0 (p : ScaraParams) (w : ℕ → ℤ) (s m : ℕ → ℝ) :
    MotorStepsToCartesian p w s m 0 =
      Real.cos (((w 0 : ℝ) / s 0) * DegreesToRadians) * p.proximalArmLength +
        Real.cos ((((w 1 : ℝ) + (w 0 : ℝ) * p.crosstalk.1) / s 1) * DegreesToRadians) *
          p.distalArmLength := rfl

/-- Helper: the Y output of `MotorStepsToCartesian`, spelled out. -/
lemma motorStepsToCartesian_at1 (p : ScaraParams) (w : ℕ → ℤ) (s m : ℕ → ℝ) :
    MotorStepsToCartesian p w s m 1 =
      Real.sin (((w 0 : ℝ) / s 0) * DegreesToRadians) * p.proximalArmLength +
        Real.sin ((((w 1 : ℝ) + (w 0 : ℝ) * p.crosstalk.1) / s 1) * DegreesToRadians) *
          p.distalArmLength := rfl

/-- Claim C1 (evaluation at the failing input): with arms 6 and 5, the target
(5, −6, 0) lies strictly inside the reachable annulus and in the valid
half-plane, and `CartesianToMotorSteps` succeeds in the default arm mode —
but feeding the produced motor steps back through `MotorStepsToCartesian`
with the same steps-per-unit vector yields X = −5 and Y = 6 instead of
(5, −6): a round-trip error of 10 mm in X, while the step-quantization bound
`π/180 · (P/stepsX + D/stepsY)` is below 1 mm. -/
theorem scara_roundTrip_fails :
    (CartesianToMotorSteps pRoundTrip target56 oneSteps true zeroMotor).1 = true ∧
    pRoundTrip.minRadius < hypot (target56 0) (target56 1) ∧
    hypot (target56 0) (target56 1) < pRoundTrip.maxRadius ∧
    (0:ℝ) < target56 0 ∧
    MotorStepsToCartesian pRoundTrip
      (CartesianToMotorSteps pRoundTrip target56 oneSteps true zeroMotor).2.2
      oneSteps zeroPos 0 = -5 ∧
    MotorStepsToCartesian pRoundTrip
      (CartesianToMotorSteps pRoundTrip target56 oneSteps true zeroMotor).2.2
      oneSteps zeroPos 1 = 6 ∧
    Real.pi / 180 * (pRoundTrip.proximalArmLength / oneSteps 0 +
      pRoundTrip.distalArmLength / oneSteps 1) < 1 ∧
    (1:ℝ) < |MotorStepsToCartesian pRoundTrip
      (CartesianToMotorSteps pRoundTrip target56 oneSteps true zeroMotor).2.2
      oneSteps zeroPos 0 - target56 0| := by
  have hm0 : target56 0 = 5 := rfl
  have hm1 : target56 1 = -6 := rfl
  have hc : cosPsiMinusTheta pRoundTrip 5 (-6) = 0 := by
    simp only [pRoundTrip, Recalc, cosPsiMinusTheta, fsquare]
    norm_num
  have hs : ¬(1 - fsquare (cosPsiMinusTheta pRoundTrip (target56 0) (target56 1)) < 0.01) := by
    rw [hm0, hm1, hc]
    norm_num [fsquare]
  have hsqrt : Real.sqrt (1 - fsquare (cosPsiMinusTheta pRoundTrip (target56 0)
      (target56 1))) = 1 := by
    rw [hm0, hm1, hc, show (1:ℝ) - fsquare 0 = 1 by norm_num [fsquare]]
    exact Real.sqrt_one
  have hK1 : scaraK1 pRoundTrip (cosPsiMinusTheta pRoundTrip (target56 0) (target56 1)) = 6 := by
    rw [hm0, hm1, hc]
    simp only [scaraK1, pRoundTrip, Recalc]
    norm_num
  have hK2 : scaraK2 pRoundTrip (Real.sqrt (1 - fsquare (cosPsiMinusTheta pRoundTrip
      (target56 0) (target56 1)))) = 5 := by
    rw [hsqrt]
    simp only [scaraK2, pRoundTrip, Recalc]
    norm_num
  have hthA : thetaModeA 5 (-6) 6 5 = Real.pi / 2 := by
    unfold thetaModeA
    rw [show (5:ℝ) * 5 - 6 * (-6) = 61 by norm_num, show (6:ℝ) * 5 + 5 * (-6) = 0 by norm_num]
    exact atan2_pos_zero (by norm_num)
  have hlim : pRoundTrip.thetaLimits.1 ≤ Real.pi / 2 := by
    show (-1:ℝ) ≤ Real.pi / 2
    have := Real.pi_pos
    linarith
  have h1 : trySolveMode pRoundTrip (target56 0) (target56 1)
      (scaraK1 pRoundTrip (cosPsiMinusTheta pRoundTrip (target56 0) (target56 1)))
      (scaraK2 pRoundTrip (Real.sqrt (1 - fsquare (cosPsiMinusTheta pRoundTrip
        (target56 0) (target56 1)))))
      true = some (Real.pi / 2) := by
    rw [hK1, hK2, hm0, hm1]
    simp only [trySolveMode]
    rw [hthA, if_pos hlim]
  have hctms := ctms_first_mode_succeeds pRoundTrip target56 oneSteps true zeroMotor
    (Real.pi / 2) hs h1
  have hE : atan2 (Real.sqrt (1 - fsquare (cosPsiMinusTheta pRoundTrip (target56 0)
      (target56 1)))) (cosPsiMinusTheta pRoundTrip (target56 0) (target56 1)) =
      Real.pi / 2 := by
    rw [hsqrt, hm0, hm1, hc]
    exact atan2_pos_zero (by norm_num)
  have hsteps : (CartesianToMotorSteps pRoundTrip target56 oneSteps true zeroMotor).2.2 =
      writeSteps pRoundTrip target56 oneSteps zeroMotor (Real.pi / 2) (Real.pi / 2) := by
    rw [hctms]
    simp [hE]
  have hpi0 : Real.pi ≠ 0 := Real.pi_ne_zero
  have hw0 : writeSteps pRoundTrip target56 oneSteps zeroMotor (Real.pi / 2)
      (Real.pi / 2) 0 = 90 := by
    show itrunc (Real.pi / 2 * RadiansToDegrees * 1) = 90
    apply itrunc_eq_intCast
    unfold RadiansToDegrees
    push_cast
    field_simp
    ring
  have hw1 : writeSteps pRoundTrip target56 oneSteps zeroMotor (Real.pi / 2)
      (Real.pi / 2) 1 = 180 := by
    show itrunc ((Real.pi / 2 + Real.pi / 2) * RadiansToDegrees * 1 -
      0 * ((itrunc (Real.pi / 2 * RadiansToDegrees * 1) : ℤ) : ℝ)) = 180
    rw [zero_mul, sub_zero]
    apply itrunc_eq_intCast
    unfold RadiansToDegrees
    push_cast
    field_simp
  have hct0 : pRoundTrip.crosstalk.1 = 0 := rfl
  have hP6 : pRoundTrip.proximalArmLength = 6 := rfl
  have hD5 : pRoundTrip.distalArmLength = 5 := rfl
  have hs0 : oneSteps 0 = 1 := rfl
  have hs1 : oneSteps 1 = 1 := rfl
  have hA1 : ((90:ℤ):ℝ) / 1 * DegreesToRadians = Real.pi / 2 := by
    unfold DegreesToRadians
    push_cast
    ring
  have hA2 : (((180:ℤ):ℝ) + ((90:ℤ):ℝ) * 0) / 1 * DegreesToRadians = Real.pi := by
    unfold DegreesToRadians
    push_cast
    ring
  have hx' : MotorStepsToCartesian pRoundTrip
      (CartesianToMotorSteps pRoundTrip target56 oneSteps true zeroMotor).2.2
      oneSteps zeroPos 0 = -5 := by
    rw [hsteps, motorStepsToCartesian_at0, hw0, hw1, hct0, hP6, hD5, hs0, hs1, hA1, hA2,
      Real.cos_pi_div_two, Real.cos_pi]
    norm_num
  have hy' : MotorStepsToCartesian pRoundTrip
      (CartesianToMotorSteps pRoundTrip target56 oneSteps true zeroMotor).2.2
      oneSteps zeroPos 1 = 6 := by
    rw [hsteps, motorStepsToCartesian_at1, hw0, hw1, hct0, hP6, hD5, hs0, hs1, hA1, hA2,
      Real.sin_pi_div_two, Real.sin_pi]
    norm_num
  have hhyp : hypot (target56 0) (target56 1) = Real.sqrt 61 := by
    rw [hm0, hm1]
    unfold hypot
    norm_num
  have hminR : pRoundTrip.minRadius = 6.06 := by
    simp only [pRoundTrip, Recalc]
    rw [Real.cos_pi_div_two]
    norm_num
  have hmaxR : pRoundTrip.maxRadius = 10.89 := by
    simp only [pRoundTrip, Recalc]
    norm_num
  refine ⟨?_, ?_, ?_, ?_, hx', hy', ?_, ?_⟩
  · rw [hctms]
  · rw [hhyp, hminR, Real.lt_sqrt (by norm_num)]
    norm_num
  · rw [hhyp, hmaxR, Real.sqrt_lt' (by norm_num)]
    norm_num
  · rw [hm0]
    norm_num
  · rw [hP6, hD5, hs0, hs1]
    have hpi := Real.pi_lt_d2
    nlinarith
  · rw [hx', hm0, show ((-5:ℝ) - 5) = -10 by norm_num, abs_neg,
      abs_of_nonneg (by norm_num : (0:ℝ) ≤ 10)]
    norm_num
